import Mathlib

/-
Verification of the GKE MCP deployment pipeline (src/lib/gke-deploy.js,
src/lib/gke-clusters.js, src/tools.js) against its natural-language
specification.

The JavaScript code is shallowly embedded: every remote collaborator call
(Google Cloud client, gcloud / kubectl subprocess) is abstracted as an
outcome field of an explicit environment record, and a thrown JavaScript
error is an `Except.error` carrying the error value.  Pure object literals
from the source become Lean structures or association lists, keeping the
field names of the source.
-/

namespace GkeMcp

/-- A JavaScript error value as observed by the code: its constructor name
(`Error`, `TypeError`, `ReferenceError`), its optional numeric `code`
property (gRPC status codes such as 5 = NOT_FOUND), and its `message`. -/
structure JsError where
  name : String
  code : Option Int
  message : String
deriving DecidableEq, Repr

/-- A GKE cluster object returned by `containerClient.getCluster`; its
internal structure is irrelevant to the embedded code, which only tests
for its presence. -/
abbrev Cluster := String

/-- Embeds `getCluster` of src/lib/gke-clusters.js (lines 45-59): the raw
response of `client.getCluster` is passed in; a NOT_FOUND failure
(`error.code === 5`) is mapped to `null` (here `none`), any other failure
is rethrown. -/
def getCluster (resp : Except JsError Cluster) : Except JsError (Option Cluster) :=
  match resp with
  | .ok c => .ok (some c)
  | .error e => if e.code = some 5 then .ok none else .error e

/-- Embeds `checkGkeClusterExists` of src/lib/gke-deploy.js (lines 88-104):
the raw response of `containerClient.getCluster` is passed in; success
maps to `true`, a NOT_FOUND failure (`error.code === 5`) maps to `false`,
any other failure is rethrown. -/
def checkGkeClusterExists (resp : Except JsError Cluster) : Except JsError Bool :=
  match resp with
  | .ok _ => .ok true
  | .error e => if e.code = some 5 then .ok false else .error e

/-- The progress-event object literal built by `logAndProgress`
(src/lib/gke-deploy.js line 54): `progressCallback({ level: severity,
data: message })`, modelled as an association list of its fields. -/
def progressEvent (severity message : String) : List (String × String) :=
  [("level", severity), ("data", message)]

/-- Embeds `logAndProgress` (src/lib/gke-deploy.js lines 41-56) restricted
to its observable outbound behaviour: when a progress callback is present
it is invoked with the event object, otherwise nothing is delivered.  The
`severity` parameter defaults to `"info"` as in the source. -/
def logAndProgress (message : String) (hasCallback : Bool)
    (severity : String := "info") : Option (List (String × String)) :=
  if hasCallback then some (progressEvent severity message) else none

/-- The `REQUIRED_APIS` constant of src/lib/gke-deploy.js (lines 21-27). -/
def REQUIRED_APIS : List String :=
  ["iam.googleapis.com", "storage.googleapis.com", "cloudbuild.googleapis.com",
   "artifactregistry.googleapis.com", "container.googleapis.com"]

/-- The `IMAGE_TAG` constant of src/lib/gke-deploy.js (line 20). -/
def IMAGE_TAG : String := "latest"

/-- Embeds the loop of `ensureApisEnabled` (src/lib/gke-deploy.js lines
61-83).  The remote service-usage collaborator is modelled by a state map
from API name to its `state` string; `getService` reads the map and a
completed `enableService` operation leaves the service `ENABLED` (the
contract of the collaborator).  The function returns the final remote
state together with the list of APIs on which `enableService` was called;
its JavaScript return value is `undefined`.  Collaborator failures, which
would abort the loop, are exercised through the orchestrator environment
instead. -/
def ensureApisEnabled : List String → (String → String) → ((String → String) × List String)
  | [], st => (st, [])
  | api :: rest, st =>
    if st api ≠ "ENABLED" then
      let st2 : String → String := fun a => if a = api then "ENABLED" else st a
      let r := ensureApisEnabled rest st2
      (r.1, api :: r.2)
    else
      ensureApisEnabled rest st

/-- One `ports` entry of the container in the deployment manifest
(src/lib/gke-deploy.js lines 147-151). -/
structure ContainerPortSpec where
  containerPort : Nat
deriving DecidableEq, Repr

/-- One `containers` entry of the deployment manifest
(src/lib/gke-deploy.js lines 143-153). -/
structure ContainerSpec where
  name : String
  image : String
  ports : List ContainerPortSpec
deriving DecidableEq, Repr

/-- The `metadata` object of a manifest (name plus labels), as in
src/lib/gke-deploy.js lines 123-128 and 163-168. -/
structure ManifestMeta where
  name : String
  labels : List (String × String)
deriving DecidableEq, Repr

/-- The deployment manifest object literal of src/lib/gke-deploy.js lines
120-157, with the nested selector and template labels flattened to the
single `app` entry each holds in the source. -/
structure DeploymentManifest where
  apiVersion : String
  kind : String
  metadata : ManifestMeta
  replicas : Nat
  selectorMatchLabelsApp : String
  templateMetadataLabelsApp : String
  containers : List ContainerSpec
deriving DecidableEq, Repr

/-- One `ports` entry of the service manifest (src/lib/gke-deploy.js lines
171-176). -/
structure ServicePortSpec where
  port : Nat
  targetPort : Nat
deriving DecidableEq, Repr

/-- The service manifest object literal of src/lib/gke-deploy.js lines
160-181. -/
structure ServiceManifest where
  apiVersion : String
  kind : String
  metadata : ManifestMeta
  type : String
  ports : List ServicePortSpec
  selectorApp : String
deriving DecidableEq, Repr

/-- The deployment manifest built by `deployToGke` (src/lib/gke-deploy.js
lines 120-157) from the deployment name and image URL. -/
def generateDeploymentManifest (deploymentName imgUrl : String) : DeploymentManifest :=
  { apiVersion := "apps/v1"
    kind := "Deployment"
    metadata := { name := deploymentName, labels := [("created-by", "gke-mcp")] }
    replicas := 1
    selectorMatchLabelsApp := deploymentName
    templateMetadataLabelsApp := deploymentName
    containers := [{ name := deploymentName, image := imgUrl,
                     ports := [{ containerPort := 8080 }] }] }

/-- The service manifest built by `deployToGke` (src/lib/gke-deploy.js
lines 160-181) from the deployment name. -/
def generateServiceManifest (deploymentName : String) : ServiceManifest :=
  { apiVersion := "v1"
    kind := "Service"
    metadata := { name := deploymentName ++ "-service", labels := [("created-by", "gke-mcp")] }
    type := "LoadBalancer"
    ports := [{ port := 80, targetPort := 8080 }]
    selectorApp := deploymentName }

/-- The observable collaborator calls issued by `deployToGke`: the
`containerClient.getCluster` check, the `gcloud container clusters
get-credentials` subprocess, the two `kubectl apply` subprocesses (tagged
by the manifest kind), the `kubectl get service` address read, and the
never-issued `createCluster` call of src/lib/gke-clusters.js. -/
inductive GkeEffect
  | getClusterCall
  | getCredentials
  | applyDescriptor (kind : String)
  | getServiceIp
  | createClusterCall
deriving DecidableEq, Repr

/-- Outcomes of the remote calls made by `deployToGke`
(src/lib/gke-deploy.js lines 109-214), one field per call site in source
order: the raw `getCluster` response, the credentials subprocess, the two
`kubectl apply` subprocesses, and the stdout of the
`kubectl get service ... jsonpath` read. -/
structure GkeEnv where
  clusterResp : Except JsError Cluster
  credsResult : Except JsError Unit
  applyDeploymentResult : Except JsError Unit
  applyServiceResult : Except JsError Unit
  ipStdout : Except JsError String
deriving Repr

/-- The error thrown at src/lib/gke-deploy.js line 116 when the target
cluster does not exist: a plain `Error` whose message names the cluster. -/
def preconditionError (clusterId : String) : JsError :=
  { name := "Error", code := none,
    message := "GKE cluster " ++ clusterId ++ " does not exist. Please create it first." }

/-- Embeds `deployToGke` (src/lib/gke-deploy.js lines 109-214).  Returns
the trace of collaborator calls together with the result: either the
returned object literal `{ name: deploymentName, url: ... }` (line
204-207, modelled as an association list of its fields) or the thrown
error.  The catch block at lines 208-213 logs and rethrows the same
error, so errors propagate unchanged. -/
def deployToGke (clusterId deploymentName imgUrl : String) (env : GkeEnv) :
    List GkeEffect × Except JsError (List (String × String)) :=
  match checkGkeClusterExists env.clusterResp with
  | .error e => ([.getClusterCall], .error e)
  | .ok false => ([.getClusterCall], .error (preconditionError clusterId))
  | .ok true =>
    let _deployment := generateDeploymentManifest deploymentName imgUrl
    let _service := generateServiceManifest deploymentName
    match env.credsResult with
    | .error e => ([.getClusterCall, .getCredentials], .error e)
    | .ok _ =>
      match env.applyDeploymentResult with
      | .error e =>
        ([.getClusterCall, .getCredentials, .applyDescriptor "Deployment"], .error e)
      | .ok _ =>
        match env.applyServiceResult with
        | .error e =>
          ([.getClusterCall, .getCredentials, .applyDescriptor "Deployment",
            .applyDescriptor "Service"], .error e)
        | .ok _ =>
          match env.ipStdout with
          | .error e =>
            ([.getClusterCall, .getCredentials, .applyDescriptor "Deployment",
              .applyDescriptor "Service", .getServiceIp], .error e)
          | .ok ip =>
            ([.getClusterCall, .getCredentials, .applyDescriptor "Deployment",
              .applyDescriptor "Service", .getServiceIp],
             .ok [("name", deploymentName), ("url", "http://" ++ ip)])

/-- One entry of the `files` argument of `deploy`: either a file-system
path string (tools `deploy_local_files` / `deploy_local_folder`,
src/tools.js lines 171 and 238) or a `{ filename, content }` object
(tool `deploy_file_contents`, src/tools.js lines 348-351). -/
inductive FileEntry
  | path (p : String)
  | inline (filename content : String)
deriving DecidableEq, Repr

/-- The JavaScript `String.prototype.toLowerCase`, written structurally
over the character list. -/
def jsToLowerCase (s : String) : String :=
  ⟨s.data.map Char.toLower⟩

/-- The JavaScript `String.prototype.endsWith`, written structurally over
the character lists. -/
def jsEndsWith (s pat : String) : Bool :=
  pat.data.isSuffixOf s.data

/-- The JavaScript expression `file.toLowerCase()` evaluated on a file
entry: defined on a string, a `TypeError` on a `{ filename, content }`
object, which has no `toLowerCase` method. -/
def fileToLowerCase : FileEntry → Except JsError String
  | .path p => .ok (jsToLowerCase p)
  | .inline _ _ =>
    .error { name := "TypeError", code := none,
             message := "file.toLowerCase is not a function" }

/-- Embeds `files.some(file => file.toLowerCase().endsWith('dockerfile'))`
(src/lib/gke-deploy.js line 249): `Array.prototype.some` stops at the
first entry whose callback returns true, and a callback throw propagates. -/
def hasDockerfile : List FileEntry → Except JsError Bool
  | [] => .ok false
  | f :: rest =>
    match fileToLowerCase f with
    | .error e => .error e
    | .ok s => if jsEndsWith s "dockerfile" then .ok true else hasDockerfile rest

/-- The stages of the deployment pipeline in the order `deploy` invokes
them (src/lib/gke-deploy.js lines 219-262; the last two live inside
`deployToGke`). -/
inductive Stage
  | enableAPIs
  | ensureBucket
  | packageSource
  | uploadSource
  | ensureRegistry
  | triggerBuild
  | ensureCluster
  | applyManifests
deriving DecidableEq, Repr

/-- The fixed stage order of the orchestrator. -/
def stageOrder : List Stage :=
  [.enableAPIs, .ensureBucket, .packageSource, .uploadSource,
   .ensureRegistry, .triggerBuild, .ensureCluster, .applyManifests]

/-- Outcomes of the stage calls made by `deploy` (src/lib/gke-deploy.js
lines 219-262), one field per awaited call in source order.  The bucket,
zip, upload, registry and build helpers are imported collaborators whose
bodies are not part of the orchestrator; each is abstracted as its
outcome: the provisioned bucket, the zip buffer, the registry repository
name, or the thrown error. -/
structure DeployEnv where
  files : List FileEntry
  apisResult : Except JsError Unit
  bucketResult : Except JsError String
  zipResult : Except JsError String
  uploadResult : Except JsError Unit
  repoResult : Except JsError String
  buildResult : Except JsError Unit
  gke : GkeEnv
deriving Repr

/-- The stages of `deployToGke` that a collaborator-call trace witnesses:
the cluster check always ran, and the apply phase ran exactly when the
credentials subprocess was started. -/
def gkeStageTrace (effs : List GkeEffect) : List Stage :=
  [Stage.ensureCluster] ++
    (if effs.contains GkeEffect.getCredentials then [Stage.applyManifests] else [])

/-- Embeds `deploy` (src/lib/gke-deploy.js lines 219-262): the awaited
stage calls in source order, each aborting the pipeline on error (the
catch block at lines 256-261 logs and rethrows the same error).  Returns
the trace of stages that were invoked together with the result.  The
image URL is assembled at line 248 from the registry repository name, the
service name and `IMAGE_TAG`; the Dockerfile scan at line 249 runs after
the registry stage and before the build stage. -/
def deploy (serviceName clusterId : String) (env : DeployEnv) :
    List Stage × Except JsError (List (String × String)) :=
  match env.apisResult with
  | .error e => ([.enableAPIs], .error e)
  | .ok _ =>
  match env.bucketResult with
  | .error e => ([.enableAPIs, .ensureBucket], .error e)
  | .ok _ =>
  match env.zipResult with
  | .error e => ([.enableAPIs, .ensureBucket, .packageSource], .error e)
  | .ok _ =>
  match env.uploadResult with
  | .error e => ([.enableAPIs, .ensureBucket, .packageSource, .uploadSource], .error e)
  | .ok _ =>
  match env.repoResult with
  | .error e =>
    ([.enableAPIs, .ensureBucket, .packageSource, .uploadSource, .ensureRegistry], .error e)
  | .ok repo =>
  let targetImageUrl := repo ++ "/" ++ serviceName ++ ":" ++ IMAGE_TAG
  match hasDockerfile env.files with
  | .error e =>
    ([.enableAPIs, .ensureBucket, .packageSource, .uploadSource, .ensureRegistry], .error e)
  | .ok _ =>
  match env.buildResult with
  | .error e =>
    ([.enableAPIs, .ensureBucket, .packageSource, .uploadSource, .ensureRegistry,
      .triggerBuild], .error e)
  | .ok _ =>
  let r := deployToGke clusterId serviceName targetImageUrl env.gke
  ([.enableAPIs, .ensureBucket, .packageSource, .uploadSource, .ensureRegistry,
    .triggerBuild] ++ gkeStageTrace r.1, r.2)

/-- Embeds the `create_project` tool handler outcome type: whether
`createProjectAndAttachBilling` resolved or rejected (src/tools.js line
65). -/
inductive CreateProjectOutcome
  | success
  | failure (message : String)
deriving DecidableEq, Repr

/-- The message of the `ReferenceError` raised when the success branch of
`create_project` (src/tools.js line 69) evaluates the template literal
referencing the identifier `newProjectId`, which is defined nowhere in
the handler. -/
def referenceErrorMessage : String := "newProjectId is not defined"

/-- The try/catch body of the `create_project` handler (src/tools.js lines
64-79).  When `createProjectAndAttachBilling` rejects, the catch branch
formats its message.  When it resolves, the success branch evaluates a
template literal that references the undefined identifier `newProjectId`;
that evaluation raises a `ReferenceError`, which the same catch branch
formats — the success text is never produced. -/
def createProjectTry (outcome : CreateProjectOutcome) : String :=
  match outcome with
  | .failure m => "Error creating GCP project or attaching billing: " ++ m
  | .success => "Error creating GCP project or attaching billing: " ++ referenceErrorMessage

/-- The JavaScript `String.prototype.trim`: strips leading and trailing
whitespace, written structurally over the character list. -/
def jsTrim (s : String) : String :=
  ⟨((s.data.dropWhile Char.isWhitespace).reverse.dropWhile Char.isWhitespace).reverse⟩

/-- Embeds the `create_project` tool handler (src/tools.js lines 49-81):
response text as a function of the optional `projectId` argument and the
outcome of `createProjectAndAttachBilling`.  The zod schema guarantees
`projectId` is a string when present, so the `typeof` test at line 56
reduces to the emptiness check on the trimmed string. -/
def create_project (projectId : Option String) (outcome : CreateProjectOutcome) : String :=
  match projectId with
  | some pid =>
    if jsTrim pid = "" then "Error: If provided, Project ID must be a non-empty string."
    else createProjectTry outcome
  | none => createProjectTry outcome

/-- A cluster-check response in which every remote call succeeds and the
address read returns the spec scenario address. -/
def gkeEnvOk : GkeEnv :=
  { clusterResp := .ok "default-cluster"
    credsResult := .ok ()
    applyDeploymentResult := .ok ()
    applyServiceResult := .ok ()
    ipStdout := .ok "198.51.100.7" }

/-- A cluster-check response reporting NOT_FOUND; the remaining calls
would succeed if reached. -/
def gkeEnvMissing : GkeEnv :=
  { clusterResp := .error { name := "Error", code := some 5, message := "NOT_FOUND" }
    credsResult := .ok ()
    applyDeploymentResult := .ok ()
    applyServiceResult := .ok ()
    ipStdout := .ok "198.51.100.7" }

/-- All remote calls succeed but the service has no external address yet:
the `kubectl get service ... jsonpath` read returns empty stdout. -/
def gkeEnvNoIp : GkeEnv :=
  { clusterResp := .ok "default-cluster"
    credsResult := .ok ()
    applyDeploymentResult := .ok ()
    applyServiceResult := .ok ()
    ipStdout := .ok "" }

/-- A deployment environment in which every stage succeeds. -/
def deployEnvOk : DeployEnv :=
  { files := [.path "Dockerfile"]
    apisResult := .ok ()
    bucketResult := .ok "my-project-mcp-gke-deployments"
    zipResult := .ok "source.zip"
    uploadResult := .ok ()
    repoResult := .ok "europe-west1-docker.pkg.dev/my-project/app-repo"
    buildResult := .ok ()
    gke := gkeEnvOk }

/-- A NOT_FOUND error value (gRPC status 5). -/
def errNotFound : JsError :=
  { name := "Error", code := some 5, message := "NOT_FOUND: cluster not found" }

/-- A permission error value (gRPC status 7), representing a
transport/permission failure distinct from NOT_FOUND. -/
def errPermission : JsError :=
  { name := "Error", code := some 7, message := "PERMISSION_DENIED" }

/-- C1: the orchestrator invokes the stages in exactly the fixed order
EnableAPIs, EnsureBucket, PackageSource, UploadSource, EnsureRegistry,
TriggerBuild, EnsureCluster, ApplyManifests: on every environment the
trace of invoked stages is an initial segment of stageOrder — so when
a stage fails (throws), none of the later stages is invoked — and on
success the trace is the whole fixed order. -/
theorem deploy_stage_order_fail_fast (sn cid : String) (env : DeployEnv) :
    (∃ k, (deploy sn cid env).1 = stageOrder.take k) ∧
    (∀ r, (deploy sn cid env).2 = Except.ok r →
      (deploy sn cid env).1 = stageOrder) := by
  obtain ⟨files, apis, bucket, zip, upload, repo, build, ⟨cresp, creds, ad, as, ipr⟩⟩ := env
  rcases apis with e | u
  · exact ⟨⟨1, rfl⟩, fun r h => by simp [deploy] at h⟩
  rcases bucket with e | bn
  · exact ⟨⟨2, rfl⟩, fun r h => by simp [deploy] at h⟩
  rcases zip with e | zb
  · exact ⟨⟨3, rfl⟩, fun r h => by simp [deploy] at h⟩
  rcases upload with e | uu
  · exact ⟨⟨4, rfl⟩, fun r h => by simp [deploy] at h⟩
  rcases repo with e | rn
  · exact ⟨⟨5, rfl⟩, fun r h => by simp [deploy] at h⟩
  rcases hd : hasDockerfile files with e | b
  · refine ⟨⟨5, ?_⟩, fun r h => ?_⟩
    · simp [deploy, hd, stageOrder]
    · simp [deploy, hd] at h
  rcases build with e | bu
  · refine ⟨⟨6, ?_⟩, fun r h => ?_⟩
    · simp [deploy, hd, stageOrder]
    · simp [deploy, hd] at h
  rcases hc : checkGkeClusterExists cresp with e | cb
  · refine ⟨⟨7, ?_⟩, fun r h => ?_⟩
    · simp [deploy, deployToGke, gkeStageTrace, hd, hc, stageOrder]
    · simp [deploy, deployToGke, hd, hc] at h
  cases cb
  · refine ⟨⟨7, ?_⟩, fun r h => ?_⟩
    · simp [deploy, deployToGke, gkeStageTrace, hd, hc, stageOrder]
    · simp [deploy, deployToGke, hd, hc] at h
  rcases creds with e | cu
  · refine ⟨⟨8, ?_⟩, fun r h => ?_⟩
    · simp [deploy, deployToGke, gkeStageTrace, hd, hc, stageOrder]
    · simp [deploy, deployToGke, hd, hc] at h
  rcases ad with e | au
  · refine ⟨⟨8, ?_⟩, fun r h => ?_⟩
    · simp [deploy, deployToGke, gkeStageTrace, hd, hc, stageOrder]
    · simp [deploy, deployToGke, hd, hc] at h
  rcases as with e | su
  · refine ⟨⟨8, ?_⟩, fun r h => ?_⟩
    · simp [deploy, deployToGke, gkeStageTrace, hd, hc, stageOrder]
    · simp [deploy, deployToGke, hd, hc] at h
  rcases ipr with e | ipstr
  · refine ⟨⟨8, ?_⟩, fun r h => ?_⟩
    · simp [deploy, deployToGke, gkeStageTrace, hd, hc, stageOrder]
    · simp [deploy, deployToGke, hd, hc] at h
  · refine ⟨⟨8, ?_⟩, fun r h => ?_⟩ <;>
      simp [deploy, deployToGke, gkeStageTrace, hd, hc, stageOrder]

/-- Witness for C1: in an environment in which every stage succeeds, the
result is a success and the trace is the whole fixed stage order. -/
theorem deploy_stage_order_fail_fast_witness :
    (deploy "app" "default-cluster" deployEnvOk).1 = stageOrder :=
  (deploy_stage_order_fail_fast "app" "default-cluster" deployEnvOk).2
    [("name", "app"), ("url", "http://198.51.100.7")] rfl

/-- C2: deploying onto a missing cluster fails with the precondition
error whose message names the missing cluster; the credential fetch and
the manifest applies are never executed in that case; and deployToGke
never issues a cluster-creation call on any input. -/
theorem deploy_missing_cluster_precondition (cid dn img : String) (env : GkeEnv) :
    GkeEffect.createClusterCall ∉ (deployToGke cid dn img env).1 ∧
    (checkGkeClusterExists env.clusterResp = Except.ok false →
      (deployToGke cid dn img env).2 = Except.error (preconditionError cid) ∧
      (preconditionError cid).message =
        "GKE cluster " ++ cid ++ " does not exist. Please create it first." ∧
      (deployToGke cid dn img env).1 = [GkeEffect.getClusterCall] ∧
      GkeEffect.getCredentials ∉ (deployToGke cid dn img env).1 ∧
      (∀ k, GkeEffect.applyDescriptor k ∉ (deployToGke cid dn img env).1)) := by
  obtain ⟨cresp, creds, ad, as, ipr⟩ := env
  constructor
  · rcases hc : checkGkeClusterExists cresp with e | b
    · simp [deployToGke, hc]
    · cases b
      · simp [deployToGke, hc]
      · rcases creds with e | u
        · simp [deployToGke, hc]
        · rcases ad with e | u2
          · simp [deployToGke, hc]
          · rcases as with e | u3
            · simp [deployToGke, hc]
            · rcases ipr with e | ipstr <;> simp [deployToGke, hc]
  · intro hfalse
    refine ⟨?_, rfl, ?_, ?_, ?_⟩ <;> simp [deployToGke, hfalse]

/-- Witness for C2 at a concrete environment whose cluster read reports
NOT_FOUND. -/
theorem deploy_missing_cluster_precondition_witness :
    (deployToGke "default-cluster" "app" "img" gkeEnvMissing).2 =
      Except.error (preconditionError "default-cluster") :=
  ((deploy_missing_cluster_precondition "default-cluster" "app" "img" gkeEnvMissing).2
    rfl).1

/-- C3 counterexample: with the manifests applied and the service still
without an external address, the applier reads the address exactly once
(no polling) and successfully returns the record whose url is the bare
scheme "http://" with no address in it — not a TimeoutError. -/
theorem applier_no_poll_counterexample :
    (deployToGke "default-cluster" "app" "img" gkeEnvNoIp).2 =
      Except.ok [("name", "app"), ("url", "http://")] ∧
    (deployToGke "default-cluster" "app" "img" gkeEnvNoIp).1.count
      GkeEffect.getServiceIp = 1 := by
  exact ⟨rfl, rfl⟩

/-- C3 amended: after applying the manifests the applier reads the
service external address exactly once — there is no polling loop and no
timeout — and returns the record whose url is "http://" concatenated
with whatever string the read produced, including the empty string; a
failing read propagates as its own error and no TimeoutError is ever
produced. -/
theorem applier_single_address_read (cid dn img ip : String) (env : GkeEnv)
    (h1 : checkGkeClusterExists env.clusterResp = Except.ok true)
    (h2 : env.credsResult = Except.ok ())
    (h3 : env.applyDeploymentResult = Except.ok ())
    (h4 : env.applyServiceResult = Except.ok ())
    (h5 : env.ipStdout = Except.ok ip) :
    (deployToGke cid dn img env).2 =
      Except.ok [("name", dn), ("url", "http://" ++ ip)] ∧
    (deployToGke cid dn img env).1.count GkeEffect.getServiceIp = 1 := by
  refine ⟨?_, ?_⟩ <;> simp [deployToGke, h1, h2, h3, h4, h5]

/-- Witness for C3 amended at a concrete environment whose address read
returns a concrete address. -/
theorem applier_single_address_read_witness :
    (deployToGke "default-cluster" "app" "img" gkeEnvOk).2 =
      Except.ok [("name", "app"), ("url", "http://198.51.100.7")] :=
  (applier_single_address_read "default-cluster" "app" "img" "198.51.100.7" gkeEnvOk
    rfl rfl rfl rfl rfl).1

/-- C5 counterexample: at a successful concrete run the returned record
has the keys name and url; looking up serviceName in it yields nothing,
so the result is not a record with a field named serviceName. -/
theorem deploy_result_serviceName_counterexample :
    (deployToGke "default-cluster" "app" "img" gkeEnvOk).2 =
      Except.ok [("name", "app"), ("url", "http://198.51.100.7")] ∧
    ([("name", "app"), ("url", "http://198.51.100.7")] :
      List (String × String)).lookup "serviceName" = none ∧
    ([("name", "app"), ("url", "http://198.51.100.7")] :
      List (String × String)).lookup "name" = some "app" := by
  exact ⟨rfl, rfl, rfl⟩

/-- C5 amended: on success the deployment returns a record consisting of
exactly the field name, holding the deployed service name, and the field
url, holding the discovered URL. -/
theorem deploy_result_fields (cid dn img : String) (env : GkeEnv)
    (obj : List (String × String))
    (h : (deployToGke cid dn img env).2 = Except.ok obj) :
    ∃ ip, obj = [("name", dn), ("url", "http://" ++ ip)] := by
  obtain ⟨cresp, creds, ad, as, ipr⟩ := env
  rcases hc : checkGkeClusterExists cresp with e | b
  · simp [deployToGke, hc] at h
  · cases b
    · simp [deployToGke, hc] at h
    · rcases creds with e | u
      · simp [deployToGke, hc] at h
      · rcases ad with e | u2
        · simp [deployToGke, hc] at h
        · rcases as with e | u3
          · simp [deployToGke, hc] at h
          · rcases ipr with e | ipstr
            · simp [deployToGke, hc] at h
            · simp only [deployToGke, hc] at h
              exact ⟨ipstr, (Except.ok.inj h).symm⟩

/-- Witness for C5 amended at a concrete successful run. -/
theorem deploy_result_fields_witness :
    ∃ ip, ([("name", "app"), ("url", "http://198.51.100.7")] :
      List (String × String)) = [("name", "app"), ("url", "http://" ++ ip)] :=
  deploy_result_fields "default-cluster" "app" "img" gkeEnvOk
    [("name", "app"), ("url", "http://198.51.100.7")] rfl

/-- An API whose remote state is already ENABLED stays ENABLED across a
run of ensureApisEnabled: the loop only ever sets states to ENABLED. -/
theorem ensureApisEnabled_state_enabled (apis : List String) (st : String → String)
    (a : String) (h : st a = "ENABLED") :
    (ensureApisEnabled apis st).1 a = "ENABLED" := by
  induction apis generalizing st with
  | nil => exact h
  | cons api rest ih =>
    by_cases hapi : st api = "ENABLED"
    · simp only [ensureApisEnabled, hapi, ne_eq, not_true_eq_false, if_false]
      exact ih st h
    · simp only [ensureApisEnabled, hapi, ne_eq, not_false_eq_true, if_true]
      apply ih
      by_cases hb : a = api
      · simp [hb]
      · simp [hb, h]

/-- After a run of ensureApisEnabled, every API of the list is ENABLED in
the final remote state. -/
theorem ensureApisEnabled_mem_enabled (apis : List String) (st : String → String)
    (a : String) (h : a ∈ apis) :
    (ensureApisEnabled apis st).1 a = "ENABLED" := by
  induction apis generalizing st with
  | nil => cases h
  | cons api rest ih =>
    rcases List.mem_cons.mp h with rfl | hmem
    · by_cases hapi : st a = "ENABLED"
      · simp only [ensureApisEnabled, hapi, ne_eq, not_true_eq_false, if_false]
        exact ensureApisEnabled_state_enabled rest st a hapi
      · simp only [ensureApisEnabled, hapi, ne_eq, not_false_eq_true, if_true]
        apply ensureApisEnabled_state_enabled
        simp
    · by_cases hapi : st api = "ENABLED"
      · simp only [ensureApisEnabled, hapi, ne_eq, not_true_eq_false, if_false]
        exact ih st hmem
      · simp only [ensureApisEnabled, hapi, ne_eq, not_false_eq_true, if_true]
        exact ih _ hmem

/-- A run of ensureApisEnabled over APIs that are all already ENABLED
issues no enableService call. -/
theorem ensureApisEnabled_no_calls (apis : List String) (st : String → String)
    (h : ∀ a ∈ apis, st a = "ENABLED") :
    (ensureApisEnabled apis st).2 = [] := by
  induction apis generalizing st with
  | nil => rfl
  | cons api rest ih =>
    have hapi : st api = "ENABLED" := h api (List.mem_cons_self api rest)
    simp only [ensureApisEnabled, hapi, ne_eq, not_true_eq_false, if_false]
    exact ih st fun a ha => h a (List.mem_cons_of_mem api ha)

/-- An API already ENABLED at the start of a run is never the target of
an enableService call during that run. -/
theorem ensureApisEnabled_enabled_not_called (apis : List String) (st : String → String)
    (a : String) (h : st a = "ENABLED") :
    a ∉ (ensureApisEnabled apis st).2 := by
  induction apis generalizing st with
  | nil => simp [ensureApisEnabled]
  | cons api rest ih =>
    by_cases hapi : st api = "ENABLED"
    · simp only [ensureApisEnabled, hapi, ne_eq, not_true_eq_false, if_false]
      exact ih st h
    · have hne : a ≠ api := fun heq => hapi (heq ▸ h)
      simp only [ensureApisEnabled, hapi, ne_eq, not_false_eq_true, if_true,
        List.mem_cons, not_or]
      refine ⟨hne, ?_⟩
      apply ih
      simp [hne, h]

/-- C4: the ensure-exists loop for APIs is idempotent: re-running it with
identical arguments against the remote state left by a first run issues
no enableService call at all (both runs return no other value than the
final state and their call list), and an API already in state ENABLED is
never the target of an enableService call. -/
theorem ensureApisEnabled_idempotent (apis : List String) (st : String → String) :
    (ensureApisEnabled apis (ensureApisEnabled apis st).1).2 = [] ∧
    (∀ a, st a = "ENABLED" → a ∉ (ensureApisEnabled apis st).2) := by
  constructor
  · exact ensureApisEnabled_no_calls apis _
      fun a ha => ensureApisEnabled_mem_enabled apis st a ha
  · exact fun a ha => ensureApisEnabled_enabled_not_called apis st a ha

/-- Witness for C4 at the concrete REQUIRED_APIS list over a remote state
in which every API is already ENABLED. -/
theorem ensureApisEnabled_idempotent_witness :
    "iam.googleapis.com" ∉ (ensureApisEnabled REQUIRED_APIS (fun _ => "ENABLED")).2 :=
  (ensureApisEnabled_idempotent REQUIRED_APIS (fun _ => "ENABLED")).2
    "iam.googleapis.com" rfl

/-- C6: manifest generation is a deterministic pure function of the
service name and the image URL: two invocations with the same inputs
produce identical descriptors, the deployment descriptor holds a single
container with the given image and a fixed replica count 1 and the
created-by label, and the service descriptor exposes the workload
externally (LoadBalancer) on port 80 routed to the container port 8080. -/
theorem manifest_generation_deterministic (n i : String) :
    generateDeploymentManifest n i = generateDeploymentManifest n i ∧
    generateServiceManifest n = generateServiceManifest n ∧
    (generateDeploymentManifest n i).containers =
      [{ name := n, image := i, ports := [{ containerPort := 8080 }] }] ∧
    (generateDeploymentManifest n i).replicas = 1 ∧
    (generateDeploymentManifest n i).metadata.labels.lookup "created-by" = some "gke-mcp" ∧
    (generateServiceManifest n).metadata.labels.lookup "created-by" = some "gke-mcp" ∧
    (generateServiceManifest n).type = "LoadBalancer" ∧
    (generateServiceManifest n).ports = [{ port := 80, targetPort := 8080 }] := by
  refine ⟨rfl, rfl, rfl, rfl, ?_, ?_, rfl, rfl⟩ <;> rfl

/-- C7: a NOT_FOUND response (error code 5) for the cluster read is mapped
to the boolean result false by checkGkeClusterExists and to a null
cluster by getCluster, not to an error, while any failure with a
different code is propagated unchanged as an error by both functions. -/
theorem cluster_not_found_mapping (resp : Except JsError Cluster) :
    (∀ e, resp = Except.error e → e.code = some 5 →
      checkGkeClusterExists resp = Except.ok false ∧
      getCluster resp = Except.ok none) ∧
    (∀ e, resp = Except.error e → ¬ e.code = some 5 →
      checkGkeClusterExists resp = Except.error e ∧
      getCluster resp = Except.error e) := by
  constructor
  · rintro e rfl h5
    simp [checkGkeClusterExists, getCluster, h5]
  · rintro e rfl h5
    simp [checkGkeClusterExists, getCluster, h5]

/-- Witness for C7 at a concrete NOT_FOUND error and a concrete
permission error. -/
theorem cluster_not_found_mapping_witness :
    checkGkeClusterExists (Except.error errNotFound) = Except.ok false ∧
    getCluster (Except.error errNotFound) = Except.ok none ∧
    checkGkeClusterExists (Except.error errPermission) = Except.error errPermission ∧
    getCluster (Except.error errPermission) = Except.error errPermission := by
  obtain ⟨h1, h2⟩ :=
    (cluster_not_found_mapping (Except.error errNotFound)).1 errNotFound rfl rfl
  obtain ⟨h3, h4⟩ :=
    (cluster_not_found_mapping (Except.error errPermission)).2 errPermission rfl (by decide)
  exact ⟨h1, h2, h3, h4⟩

/-- C8 counterexample: the event delivered to the progress subscriber at
a concrete call carries no severity, message or timestamp field — its
fields are named level and data. -/
theorem progress_event_missing_fields_counterexample :
    logAndProgress "All required APIs are enabled." true =
      some (progressEvent "info" "All required APIs are enabled.") ∧
    (progressEvent "info" "All required APIs are enabled.").lookup "severity" = none ∧
    (progressEvent "info" "All required APIs are enabled.").lookup "message" = none ∧
    (progressEvent "info" "All required APIs are enabled.").lookup "timestamp" = none := by
  decide

/-- C8 amended: every event delivered to the progress subscriber is a
record with a level field holding the severity (the module passes only
values among debug/info/warn/error, with default info) and a data field
holding the message; it has no timestamp field and no field named
severity. -/
theorem progress_event_fields (message severity : String) (hasCallback : Bool)
    (ev : List (String × String))
    (h : logAndProgress message hasCallback severity = some ev) :
    ev = [("level", severity), ("data", message)] ∧
    ev.lookup "timestamp" = none ∧
    ev.lookup "severity" = none := by
  cases hasCallback with
  | false => simp [logAndProgress] at h
  | true =>
    simp [logAndProgress, progressEvent] at h
    subst h
    refine ⟨rfl, ?_, ?_⟩ <;> rfl

/-- Witness for C8 amended at a concrete delivered event. -/
theorem progress_event_fields_witness :
    ([("level", "error"), ("data", "Deployment failed: boom")] :
      List (String × String)).lookup "timestamp" = none :=
  (progress_event_fields "Deployment failed: boom" "error" true _ rfl).2.1

/-- C9: the build-strategy scan of deploy throws a TypeError on the
(filename, content) entries passed by the deploy_file_contents tool,
while it succeeds on file-system path entries — the two documented input
shapes are not handled uniformly at src/lib/gke-deploy.js line 249. -/
theorem hasDockerfile_inline_throws :
    hasDockerfile [FileEntry.inline "Dockerfile" "FROM node:20"] =
      Except.error { name := "TypeError", code := none,
                     message := "file.toLowerCase is not a function" } ∧
    hasDockerfile [FileEntry.path "/app/Dockerfile"] = Except.ok true := by
  exact ⟨rfl, rfl⟩

/-- C10 counterexample: with projectId given as the empty string and a
successful creation outcome, the handler returns its validation message,
which differs from the catch-branch message — so not literally every
invocation returns the error-branch text. -/
theorem create_project_validation_counterexample :
    create_project (some "") CreateProjectOutcome.success =
      "Error: If provided, Project ID must be a non-empty string." ∧
    create_project (some "") CreateProjectOutcome.success ≠
      createProjectTry CreateProjectOutcome.success := by
  decide

/-- C10 amended: the create_project handler never returns its success
message — every response is either the projectId validation message or
the catch-branch message — and for every invocation whose projectId
passes validation the response is the catch-branch message even when
creation and billing succeed, because the success branch references the
undefined identifier newProjectId and the resulting ReferenceError is
caught by the surrounding handler. -/
theorem create_project_always_error_branch (pid : Option String)
    (oc : CreateProjectOutcome) :
    (create_project pid oc =
        "Error: If provided, Project ID must be a non-empty string." ∨
      ∃ m, create_project pid oc =
        "Error creating GCP project or attaching billing: " ++ m) ∧
    ((pid = none ∨ ∃ s, pid = some s ∧ ¬ jsTrim s = "") →
      ∃ m, create_project pid oc =
        "Error creating GCP project or attaching billing: " ++ m) := by
  constructor
  · cases pid with
    | none =>
      cases oc with
      | success => exact Or.inr ⟨referenceErrorMessage, rfl⟩
      | failure m => exact Or.inr ⟨m, rfl⟩
    | some s =>
      by_cases hs : jsTrim s = ""
      · left
        simp [create_project, hs]
      · right
        cases oc with
        | success =>
          exact ⟨referenceErrorMessage, by simp [create_project, hs, createProjectTry]⟩
        | failure m =>
          exact ⟨m, by simp [create_project, hs, createProjectTry]⟩
  · rintro (rfl | ⟨s, rfl, hs⟩)
    · cases oc with
      | success => exact ⟨referenceErrorMessage, rfl⟩
      | failure m => exact ⟨m, rfl⟩
    · cases oc with
      | success =>
        exact ⟨referenceErrorMessage, by simp [create_project, hs, createProjectTry]⟩
      | failure m =>
        exact ⟨m, by simp [create_project, hs, createProjectTry]⟩

/-- Witness for C10 amended at a concrete valid projectId and a
successful creation outcome. -/
theorem create_project_always_error_branch_witness :
    ∃ m, create_project (some "my-new-project") CreateProjectOutcome.success =
      "Error creating GCP project or attaching billing: " ++ m :=
  (create_project_always_error_branch (some "my-new-project")
      CreateProjectOutcome.success).2 (Or.inr ⟨"my-new-project", rfl, by decide⟩)

end GkeMcp
